import Mathlib

/-!
Verification development for the enterprise document question-answering
system (RAG pipeline). The repository ships the React client
(frontend/src/pages/Dashboard.js) and a dev-server plugin
(frontend/plugins/visual-edits/dev-server-setup.js); the Python backend
(ingestion pipeline, vector index, retrieval orchestrator, chat ledger)
is described by the specification but its source is not in the tree, so
those components are modelled from the spec text and marked as such.
Client-side behaviour is embedded directly from the JavaScript source.
-/

namespace RagQA

/-- Whitespace characters recognised by the JavaScript String trim method
(modelled subset: space, tab, line feed, carriage return). -/
def isJsWhitespace (c : Char) : Bool :=
  c == ' ' || c == '\t' || c == '\n' || c == '\r'

/-- Embedding of the JavaScript expression question.trim(): drop leading and
trailing whitespace. -/
def jsTrim (s : String) : String :=
  ⟨((s.data.dropWhile isJsWhitespace).reverse.dropWhile isJsWhitespace).reverse⟩

/-! ## Vector index (modelled from the spec, section 4.3)

Modelled from the spec: the backend vector index source is not in the
tree. Entries are kept in insertion order; similarity is the dot product
over (assumed normalised) vectors, with rational components standing in
for the opaque embedding output. -/

/-- An embedding vector, rational components standing in for floats. -/
abbrev Vec := List ℚ

/-- Dot product of two vectors (cosine similarity over normalised vectors). -/
def dot : Vec → Vec → ℚ
  | [], _ => 0
  | _, [] => 0
  | a :: as, b :: bs => a * b + dot as bs

/-- Modelled from the spec: one vector index entry, keyed by chunk id with a
back-reference to the owning document. -/
structure Entry where
  chunkId : Nat
  docId : Nat
  vec : Vec

/-- Modelled from the spec: the vector index, entries in insertion order. -/
structure VectorIndex where
  entries : List Entry

/-- A scored candidate during search: its insertion position, chunk id and
similarity score. -/
structure Scored where
  pos : Nat
  chunkId : Nat
  score : ℚ

/-- Result order for search: higher score first; on equal scores the earlier
inserted entry (smaller position) first. -/
def rank (a b : Scored) : Prop :=
  b.score < a.score ∨ (a.score = b.score ∧ a.pos ≤ b.pos)

instance : DecidableRel rank := fun a b =>
  decidable_of_iff (b.score < a.score ∨ (a.score = b.score ∧ a.pos ≤ b.pos)) Iff.rfl

instance : IsTotal Scored rank := by
  constructor
  intro a b
  rcases lt_trichotomy a.score b.score with h | h | h
  · exact Or.inr (Or.inl h)
  · rcases Nat.le_total a.pos b.pos with hp | hp
    · exact Or.inl (Or.inr ⟨h, hp⟩)
    · exact Or.inr (Or.inr ⟨h.symm, hp⟩)
  · exact Or.inl (Or.inl h)

instance : IsTrans Scored rank := by
  constructor
  intro a b c hab hbc
  rcases hab with hab | ⟨hab, hpab⟩
  · rcases hbc with hbc | ⟨hbc, _⟩
    · exact Or.inl (lt_trans hbc hab)
    · exact Or.inl (hbc ▸ hab)
  · rcases hbc with hbc | ⟨hbc, hpbc⟩
    · exact Or.inl (hab ▸ hbc)
    · exact Or.inr ⟨hab.trans hbc, hpab.trans hpbc⟩

/-- Score every index entry against the query, remembering insertion
positions. -/
def scoredList (idx : VectorIndex) (q : Vec) : List Scored :=
  idx.entries.enum.map fun p => ⟨p.1, p.2.chunkId, dot q p.2.vec⟩

/-- Top-k search, keeping the position annotations: stable descending sort by
score, then take the first k. -/
def searchRanked (idx : VectorIndex) (q : Vec) (k : Nat) : List Scored :=
  (List.insertionSort rank (scoredList idx q)).take k

/-- Modelled from the spec: search(query_vector, k) returns (chunk id, score)
pairs sorted by similarity descending, ties broken by insertion order. -/
def search (idx : VectorIndex) (q : Vec) (k : Nat) : List (Nat × ℚ) :=
  (searchRanked idx q k).map fun s => (s.chunkId, s.score)

/-! ## Upload batch (modelled from the spec, sections 4.5 and 6)

Modelled from the spec: the backend ingestion pipeline source is not in
the tree. Each file of a batch is ingested independently; per-file
ingestion is abstracted as a function returning success or a typed error
message. -/

/-- One file of an upload batch: filename and raw bytes. -/
structure UploadFile where
  filename : String
  rawBytes : List Nat
deriving DecidableEq

/-- One entry of the failed-files report: the filename and its error. -/
structure FailedFile where
  filename : String
  error : String
deriving DecidableEq

/-- The structured batch report returned by the Upload operation. -/
structure UploadReport where
  uploaded : Nat
  failed : Nat
  failed_files : List FailedFile
deriving DecidableEq

/-- Whether a per-file ingestion outcome is a success. -/
def ingestOk : Except String Unit → Bool
  | .ok _ => true
  | .error _ => false

/-- A failing ingestion outcome paired with its filename, for the report. -/
def failureEntry (f : UploadFile) : Except String Unit → Option FailedFile
  | .ok _ => none
  | .error e => some ⟨f.filename, e⟩

/-- Modelled from the spec: process every file of the batch independently and
return the structured report; one failure never aborts the batch. -/
def uploadBatch (ingest : UploadFile → Except String Unit) (files : List UploadFile) :
    UploadReport where
  uploaded := (files.filter fun f => ingestOk (ingest f)).length
  failed := (files.filter fun f => !ingestOk (ingest f)).length
  failed_files := files.filterMap fun f => failureEntry f (ingest f)

/-! ## Client model, embedded from frontend/src/pages/Dashboard.js -/

/-- A toast notification raised through the sonner library. -/
inductive Toast where
  | success : String → Toast
  | error : String → Toast
deriving DecidableEq

/-- Whether a toast is a success notice. -/
def isSuccessToast : Toast → Bool
  | .success _ => true
  | .error _ => false

/-- Whether a toast is an error notice. -/
def isErrorToast : Toast → Bool
  | .success _ => false
  | .error _ => true

/-- Toasts raised by handleFileUpload on a successful upload response
(Dashboard.js lines 59 to 69): one success notice when uploaded is positive,
then one error notice per failed-files entry when failed is positive. -/
def uploadToasts (r : UploadReport) : List Toast :=
  (if 0 < r.uploaded then
    [Toast.success (toString r.uploaded ++ " document(s) uploaded successfully")]
  else []) ++
  (if 0 < r.failed then
    r.failed_files.map fun f => Toast.error (f.filename ++ ": " ++ f.error)
  else [])

/-- One document row as the client fetches it from the documents endpoint. -/
structure DocMeta where
  id : Nat
  filename : String
  num_chunks : Nat
deriving DecidableEq

/-- One citation source of an Ask response: exactly the fields the client
reads (filename, page, text). -/
structure Source where
  filename : String
  page : Int
  text : String
deriving DecidableEq

/-- The Ask response body: the answer and the citation sources. -/
structure AskResponse where
  answer : String
  sources : List Source
deriving DecidableEq

/-- The currentAnswer client state set after a successful Ask. -/
structure CurrentAnswer where
  question : String
  answer : String
  sources : List Source
deriving DecidableEq

/-- One chat-history record as served to the client: sources is a sequence of
plain filename strings. -/
structure ChatRecord where
  id : Nat
  question : String
  answer : String
  sources : List String
  timestamp : Nat
deriving DecidableEq

/-- The Dashboard component state (Dashboard.js lines 16 to 21). -/
structure DashState where
  documents : List DocMeta
  chatHistory : List ChatRecord
  question : String
  isUploading : Bool
  isAsking : Bool
  currentAnswer : Option CurrentAnswer
deriving DecidableEq

/-- Disabled condition of the question input (Dashboard.js line 251). -/
def questionInputDisabled (st : DashState) : Bool :=
  st.isAsking || st.documents.length == 0

/-- Disabled condition of the Ask button (Dashboard.js line 257). -/
def askButtonDisabled (st : DashState) : Bool :=
  st.isAsking || (jsTrim st.question).isEmpty || st.documents.length == 0

/-- Outcome of the chat request issued by handleAskQuestion: a response
together with the history fetched afterwards, or a failure. -/
inductive AskOutcome where
  | ok : AskResponse → List ChatRecord → AskOutcome
  | failed : AskOutcome

/-- Embedding of handleAskQuestion (Dashboard.js lines 101 to 121) as a pure
step: given the state and the request outcome, produce the new state, whether
a request was issued at all, and the toasts raised. A blank question returns
before any request; success stores the answer, clears the question and
replaces the history with the fetched one; failure only raises a toast; both
paths clear the in-flight flag. -/
def handleAskQuestion (st : DashState) (outcome : AskOutcome) :
    DashState × Bool × List Toast :=
  if (jsTrim st.question).isEmpty then (st, false, [])
  else
    match outcome with
    | .ok resp hist =>
        ({ st with
            currentAnswer := some ⟨st.question, resp.answer, resp.sources⟩
            question := ""
            chatHistory := hist
            isAsking := false }, true, [])
    | .failed =>
        ({ st with isAsking := false }, true, [Toast.error "Failed to get answer"])

/-- Page label rendered next to a source filename (Dashboard.js line 308):
shown only when page is positive. -/
def pageLabel (page : Int) : String :=
  if 0 < page then "(Page " ++ toString page ++ ")" else ""

/-- Rendering of one citation source (Dashboard.js lines 301 to 314): the
header line built from filename and page, and the snippet text. -/
def renderSource (s : Source) : String × String :=
  (s.filename ++ " " ++ pageLabel s.page, s.text)

/-- Rendering of one chat-history source chip (Dashboard.js lines 364 to 373):
the element is rendered directly as text. -/
def renderHistorySource (s : String) : String := s

/-! ## Retrieval orchestrator (modelled from the spec, section 4.6)

Modelled from the spec: the backend retrieval orchestrator source is not
in the tree. The corpus is the list of chunks in insertion order, each
carrying its document metadata for citation building; question embedding
is taken as an already-computed query vector, and the generation model is
an opaque function that may fail with a typed error message. -/

/-- Modelled from the spec: one stored chunk with its citation metadata
(page zero meaning page unset). -/
structure Chunk where
  id : Nat
  docId : Nat
  ordinal : Nat
  filename : String
  page : Int
  text : String
  vec : Vec
deriving DecidableEq

/-- Result order for chunk retrieval: compare the score annotations. -/
def rankChunk (a b : Scored × Chunk) : Prop := rank a.1 b.1

instance : DecidableRel rankChunk := fun a b =>
  inferInstanceAs (Decidable (rank a.1 b.1))

instance : IsTotal (Scored × Chunk) rankChunk :=
  ⟨fun a b => total_of rank a.1 b.1⟩

instance : IsTrans (Scored × Chunk) rankChunk :=
  ⟨fun _ _ _ hab hbc => trans_of rank hab hbc⟩

/-- Score every corpus chunk against the query vector, remembering insertion
positions. -/
def scoredChunks (corpus : List Chunk) (qv : Vec) : List (Scored × Chunk) :=
  corpus.enum.map fun p => (⟨p.1, p.2.id, dot qv p.2.vec⟩, p.2)

/-- Modelled from the spec: top-k chunk retrieval, same ranking as the vector
index search. -/
def retrieve (corpus : List Chunk) (qv : Vec) (k : Nat) : List Chunk :=
  ((List.insertionSort rankChunk (scoredChunks corpus qv)).take k).map fun p => p.2

/-- Modelled from the spec: the fixed answer returned for an empty corpus. -/
def noDocumentsAnswer : String :=
  "No documents available. Please upload documents first."

/-- Modelled from the spec: the bound on citation snippet length. -/
def snippetBound : Nat := 200

/-- Modelled from the spec: the citation entry built from one retrieved
chunk, with the snippet a bounded prefix of the chunk text. -/
def mkCitation (c : Chunk) : Source :=
  ⟨c.filename, c.page, ⟨c.text.data.take snippetBound⟩⟩

/-- Modelled from the spec: the generation context, each retrieved chunk text
tagged with its source filename. -/
def assembleContext (chunks : List Chunk) : String :=
  String.join (chunks.map fun c => "Source: " ++ c.filename ++ "\n" ++ c.text ++ "\n\n")

/-- Modelled from the spec: the Ask operation. Returns the response or a
typed error, together with a flag recording whether the generation function
was invoked. An empty retrieval returns the fixed no-documents answer with
empty sources and never calls generation. -/
def ask (corpus : List Chunk) (k : Nat) (gen : String → String → Except String String)
    (qv : Vec) (question : String) : Except String AskResponse × Bool :=
  let retrieved := retrieve corpus qv k
  if retrieved.isEmpty then (.ok ⟨noDocumentsAnswer, []⟩, false)
  else
    match gen question (assembleContext retrieved) with
    | .ok answer => (.ok ⟨answer, retrieved.map mkCitation⟩, true)
    | .error e => (.error e, true)

/-- Modelled from the spec: the Ask operation together with the chat ledger.
On success a ChatRecord carrying the source filename list is appended; on
failure the typed error is surfaced and the ledger is unchanged. -/
def askAndRecord (corpus : List Chunk) (k : Nat)
    (gen : String → String → Except String String) (qv : Vec) (question : String)
    (nextId ts : Nat) (ledger : List ChatRecord) :
    Except String AskResponse × List ChatRecord :=
  let retrieved := retrieve corpus qv k
  if retrieved.isEmpty then (.ok ⟨noDocumentsAnswer, []⟩, ledger)
  else
    match gen question (assembleContext retrieved) with
    | .error e => (.error e, ledger)
    | .ok answer =>
        (.ok ⟨answer, retrieved.map mkCitation⟩,
          ledger ++ [⟨nextId, question, answer, retrieved.map fun c => c.filename, ts⟩])

/-! ## Dev-server /edit-file handler, embedded from
frontend/plugins/visual-edits/dev-server-setup.js -/

/-- Body of an /edit-file request; a field is none when absent. -/
structure EditRequest where
  filePath : Option String
  content : Option String

/-- Observable outcome of the /edit-file handler: the HTTP status and whether
any filesystem write was performed. -/
structure EditResponse where
  status : Nat
  wrote : Bool
deriving DecidableEq

/-- Embedding of the JavaScript startsWith test on strings. -/
def jsStartsWith (s head : String) : Bool := head.data.isPrefixOf s.data

/-- Substring containment on character lists, as the JavaScript includes
test. -/
def containsSub : List Char → List Char → Bool
  | needle, [] => needle.isEmpty
  | needle, c :: t => needle.isPrefixOf (c :: t) || containsSub needle t

/-- Embedding of the JavaScript includes test on strings. -/
def jsIncludes (s sub : String) : Bool := containsSub sub.data s.data

/-- The sensitive-directory test of the handler (dev-server-setup.js lines 58
to 60). -/
def forbiddenDir (absolutePath : String) : Bool :=
  jsIncludes absolutePath "node_modules" || jsIncludes absolutePath ".git" ||
    jsIncludes absolutePath "/public/"

/-- Embedding of the /edit-file handler (dev-server-setup.js lines 33 to 89).
The path resolution performed by path.resolve against the frontend root is
passed in as a function, since it is filesystem-dependent. A missing or empty
filePath or a missing content yields 400 with no write; a resolved path
failing the startsWith check or containing a sensitive directory yields 403
with no write; otherwise the content is written and 200 returned. -/
def editFileHandler (frontendRoot : String) (resolvePath : String → String)
    (req : EditRequest) : EditResponse :=
  match req.filePath, req.content with
  | some fp, some _ =>
      if fp = "" then ⟨400, false⟩
      else
        let absolutePath := resolvePath fp
        if !jsStartsWith absolutePath frontendRoot then ⟨403, false⟩
        else if forbiddenDir absolutePath then ⟨403, false⟩
        else ⟨200, true⟩
  | _, _ => ⟨400, false⟩

/-- A path p lies within directory root when it equals root or extends it
past a path separator. -/
def withinDir (root p : String) : Bool :=
  p == root || (root ++ "/").data.isPrefixOf p.data

/-! ## CORS origin validation, embedded from
frontend/plugins/visual-edits/dev-server-setup.js lines 16 to 25 -/

/-- Decimal digit test, as the regular-expression class of digits. -/
def isDigitCh (c : Char) : Bool := decide ('0' ≤ c) && decide (c ≤ '9')

/-- Match of the optional port part of the origin pattern against the whole
remaining input: empty, or a colon followed by one or more digits. -/
def portOk (l : List Char) : Bool :=
  match l with
  | [] => true
  | c :: ds => c == ':' && !ds.isEmpty && ds.all isDigitCh

/-- Match of the host-and-port part of the origin pattern against the whole
remaining input; both accepted hosts are nine characters long. -/
def hostPort (r : List Char) : Bool :=
  ("localhost".data.isPrefixOf r || "127.0.0.1".data.isPrefixOf r) && portOk (r.drop 9)

/-- Embedding of the anchored origin regular expression of the handler:
http or https scheme, host localhost or 127.0.0.1, optional numeric port. -/
def matchesOriginRe (s : String) : Bool :=
  ("http://".data.isPrefixOf s.data && hostPort (s.data.drop 7)) ||
    ("https://".data.isPrefixOf s.data && hostPort (s.data.drop 8))

/-- Embedding of isAllowedOrigin: missing or empty origins are rejected,
otherwise the origin is matched against the pattern. -/
def isAllowedOrigin : Option String → Bool
  | none => false
  | some s => if s = "" then false else matchesOriginRe s

/-- Declarative reading of the claim about isAllowedOrigin: the origin splits
into an http or https scheme, an accepted host, and an optional numeric
port. -/
def OriginShape (s : String) : Prop :=
  ∃ proto host port : String,
    (proto = "http" ∨ proto = "https") ∧
    (host = "localhost" ∨ host = "127.0.0.1") ∧
    (port = "" ∨ ∃ ds : List Char, ds ≠ [] ∧ ds.all isDigitCh = true ∧
      port.data = ':' :: ds) ∧
    s = proto ++ "://" ++ host ++ port

end RagQA

namespace RagQA

/-- C1: search returns at most k results, the ranked result list is sorted by
descending score with ties broken by insertion position, and searching the
empty index yields the empty sequence rather than an error. -/
theorem search_spec (idx : VectorIndex) (q : Vec) (k : Nat) :
    (search idx q k).length ≤ k ∧
    List.Sorted rank (searchRanked idx q k) ∧
    search ⟨[]⟩ q k = [] := by
  refine ⟨?_, ?_, by simp [search, searchRanked, scoredList, List.insertionSort]⟩
  · simp only [search, searchRanked, List.length_map, List.length_take]
    exact min_le_left _ _
  · exact List.Pairwise.sublist (List.take_sublist _ _)
      (List.sorted_insertionSort rank (scoredList idx q))

theorem failed_eq_failed_files_length (ingest : UploadFile → Except String Unit)
    (files : List UploadFile) :
    (files.filter fun f => !ingestOk (ingest f)).length =
      (files.filterMap fun f => failureEntry f (ingest f)).length := by
  induction files with
  | nil => rfl
  | cons f fs ih =>
      cases h : ingest f with
      | ok u =>
          simpa [List.filter_cons, List.filterMap_cons, h, failureEntry, ingestOk] using ih
      | error e =>
          simpa [List.filter_cons, List.filterMap_cons, h, failureEntry, ingestOk] using ih

/-- C2: the upload report accounts for every file of the batch (failures never
abort it), the failed count equals the length of the failed-files list, every
per-file failure is reported alongside the successes, and the client raises
one success toast exactly when uploaded is positive and one error toast per
failed-files entry. -/
theorem upload_report_spec (ingest : UploadFile → Except String Unit)
    (files : List UploadFile) :
    (uploadBatch ingest files).uploaded + (uploadBatch ingest files).failed =
      files.length ∧
    (uploadBatch ingest files).failed = (uploadBatch ingest files).failed_files.length ∧
    (∀ f ∈ files, ∀ e : String, ingest f = Except.error e →
      (⟨f.filename, e⟩ : FailedFile) ∈ (uploadBatch ingest files).failed_files) ∧
    ((uploadToasts (uploadBatch ingest files)).filter isSuccessToast).length =
      (if 0 < (uploadBatch ingest files).uploaded then 1 else 0) ∧
    ((uploadToasts (uploadBatch ingest files)).filter isErrorToast).length =
      (uploadBatch ingest files).failed_files.length := by
  have hff : (uploadBatch ingest files).failed =
      (uploadBatch ingest files).failed_files.length :=
    failed_eq_failed_files_length ingest files
  refine ⟨(List.length_eq_length_filter_add _).symm, hff, ?_, ?_, ?_⟩
  · intro f hf e he
    exact List.mem_filterMap.mpr ⟨f, hf, by rw [he]; rfl⟩
  · by_cases h1 : 0 < (uploadBatch ingest files).uploaded <;>
      by_cases h2 : 0 < (uploadBatch ingest files).failed <;>
      simp [uploadToasts, h1, h2, List.filter_append, List.filter_map,
        isSuccessToast, isErrorToast, Function.comp]
  · by_cases h2 : 0 < (uploadBatch ingest files).failed
    · by_cases h1 : 0 < (uploadBatch ingest files).uploaded <;>
        simp [uploadToasts, h1, h2, List.filter_append, List.filter_map,
          isSuccessToast, isErrorToast, Function.comp]
    · have h0 : (uploadBatch ingest files).failed_files.length = 0 := by
        omega
      by_cases h1 : 0 < (uploadBatch ingest files).uploaded <;>
        simp [uploadToasts, h1, h2, List.filter_append, List.filter_map,
          isSuccessToast, isErrorToast, Function.comp, h0]

theorem upload_report_spec_witness :
    (uploadBatch (fun f => if f.filename = "bad.pdf" then Except.error "corrupt"
        else Except.ok ()) [⟨"good.pdf", [1]⟩, ⟨"bad.pdf", [2]⟩]).uploaded +
      (uploadBatch (fun f => if f.filename = "bad.pdf" then Except.error "corrupt"
        else Except.ok ()) [⟨"good.pdf", [1]⟩, ⟨"bad.pdf", [2]⟩]).failed = 2 ∧
    (⟨"bad.pdf", "corrupt"⟩ : FailedFile) ∈
      (uploadBatch (fun f => if f.filename = "bad.pdf" then Except.error "corrupt"
        else Except.ok ()) [⟨"good.pdf", [1]⟩, ⟨"bad.pdf", [2]⟩]).failed_files := by
  have h := upload_report_spec
    (fun f => if f.filename = "bad.pdf" then Except.error "corrupt" else Except.ok ())
    [⟨"good.pdf", [1]⟩, ⟨"bad.pdf", [2]⟩]
  exact ⟨h.1, h.2.2.1 ⟨"bad.pdf", [2]⟩ (by simp) "corrupt" (by simp)⟩

/-- C3: asking against the empty corpus returns the fixed no-documents answer
with an empty source list without invoking the generation function, and in
the client an empty documents list disables both the question input and the
Ask button. -/
theorem empty_corpus_ask_spec (k : Nat) (gen : String → String → Except String String)
    (qv : Vec) (question : String) (st : DashState) (hdocs : st.documents = []) :
    ask [] k gen qv question = (Except.ok ⟨noDocumentsAnswer, []⟩, false) ∧
    questionInputDisabled st = true ∧ askButtonDisabled st = true := by
  refine ⟨?_, ?_, ?_⟩
  · simp [ask, retrieve, scoredChunks, List.insertionSort]
  · simp [questionInputDisabled, hdocs]
  · simp [askButtonDisabled, hdocs]

theorem empty_corpus_ask_spec_witness :
    ask [] 3 (fun _ c => Except.ok c) [] "hello" =
      (Except.ok ⟨noDocumentsAnswer, []⟩, false) ∧
    questionInputDisabled ⟨[], [], "q", false, false, none⟩ = true ∧
    askButtonDisabled ⟨[], [], "q", false, false, none⟩ = true :=
  empty_corpus_ask_spec 3 (fun _ c => Except.ok c) [] "hello"
    ⟨[], [], "q", false, false, none⟩ rfl

/-- C4: when generation fails the Ask operation surfaces the typed error and
appends no ChatRecord, and the client error path leaves the current answer,
chat history and question unchanged, only clearing the in-flight flag while
raising one error toast. -/
theorem ask_failure_spec (corpus : List Chunk) (k : Nat) (qv : Vec)
    (question : String) (gen : String → String → Except String String) (e : String)
    (nextId ts : Nat) (ledger : List ChatRecord) (st : DashState)
    (hret : retrieve corpus qv k ≠ [])
    (hgen : gen question (assembleContext (retrieve corpus qv k)) = Except.error e)
    (hq : (jsTrim st.question).isEmpty = false) :
    askAndRecord corpus k gen qv question nextId ts ledger = (Except.error e, ledger) ∧
    handleAskQuestion st AskOutcome.failed =
      ({ st with isAsking := false }, true, [Toast.error "Failed to get answer"]) ∧
    ({ st with isAsking := false } : DashState).currentAnswer = st.currentAnswer ∧
    ({ st with isAsking := false } : DashState).chatHistory = st.chatHistory ∧
    ({ st with isAsking := false } : DashState).question = st.question := by
  have hne : (retrieve corpus qv k).isEmpty = false := by
    simp [List.isEmpty_eq_false, hret]
  refine ⟨?_, ?_, rfl, rfl, rfl⟩
  · simp [askAndRecord, hne, hgen]
  · simp [handleAskQuestion, hq]

theorem ask_failure_spec_witness :
    askAndRecord [⟨0, 0, 0, "a.pdf", 1, "hello", [1]⟩] 3 (fun _ _ => Except.error "boom")
        [1] "what" 7 11 [] = (Except.error "boom", []) ∧
    handleAskQuestion ⟨[⟨0, "a.pdf", 1⟩], [], "what", false, true, none⟩
        AskOutcome.failed =
      (⟨[⟨0, "a.pdf", 1⟩], [], "what", false, false, none⟩, true,
        [Toast.error "Failed to get answer"]) ∧
    (none : Option CurrentAnswer) = none ∧
    ([] : List ChatRecord) = [] ∧
    "what" = "what" :=
  ask_failure_spec [⟨0, 0, 0, "a.pdf", 1, "hello", [1]⟩] 3 [1] "what"
    (fun _ _ => Except.error "boom") "boom" 7 11 []
    ⟨[⟨0, "a.pdf", 1⟩], [], "what", false, true, none⟩ (by decide) rfl (by decide)

/-- C5: a successful Ask returns the answer with one citation source per
retrieved chunk in order, each source carrying the chunk filename and page
and a snippet that is a bounded prefix of the chunk text, and the client
rendering of a source reads exactly its filename, page and text fields. -/
theorem ask_success_sources_spec (corpus : List Chunk) (k : Nat) (qv : Vec)
    (question answer : String) (gen : String → String → Except String String)
    (hret : retrieve corpus qv k ≠ [])
    (hgen : gen question (assembleContext (retrieve corpus qv k)) = Except.ok answer) :
    ask corpus k gen qv question =
      (Except.ok ⟨answer, (retrieve corpus qv k).map mkCitation⟩, true) ∧
    (∀ c : Chunk, (mkCitation c).filename = c.filename ∧
      (mkCitation c).page = c.page ∧
      (mkCitation c).text.data <+: c.text.data ∧
      (mkCitation c).text.data.length ≤ snippetBound) ∧
    (∀ s : Source, renderSource s = (s.filename ++ " " ++ pageLabel s.page, s.text)) := by
  have hne : (retrieve corpus qv k).isEmpty = false := by
    simp [List.isEmpty_eq_false, hret]
  refine ⟨by simp [ask, hne, hgen], fun c => ⟨rfl, rfl, ?_, ?_⟩, fun s => rfl⟩
  · exact List.take_prefix _ _
  · show (c.text.data.take snippetBound).length ≤ snippetBound
    rw [List.length_take]
    exact min_le_left _ _

theorem ask_success_sources_spec_witness :
    ask [⟨0, 0, 0, "a.pdf", 1, "hello", [1]⟩] 3 (fun _ _ => Except.ok "ans") [1] "what" =
      (Except.ok ⟨"ans", [⟨"a.pdf", 1, "hello"⟩]⟩, true) ∧
    renderSource ⟨"a.pdf", 1, "hello"⟩ = ("a.pdf" ++ " " ++ pageLabel 1, "hello") := by
  have h := ask_success_sources_spec [⟨0, 0, 0, "a.pdf", 1, "hello", [1]⟩] 3 [1]
    "what" "ans" (fun _ _ => Except.ok "ans") (by decide) rfl
  exact ⟨h.1, h.2.2 ⟨"a.pdf", 1, "hello"⟩⟩

/-- C7: the ChatRecord appended for an answered question carries the id,
question, answer, timestamp and the sources as the plain list of retrieved
filenames, and the client renders each history source element directly as
text. -/
theorem chat_record_sources_spec (corpus : List Chunk) (k : Nat) (qv : Vec)
    (question answer : String) (gen : String → String → Except String String)
    (nextId ts : Nat) (ledger : List ChatRecord)
    (hret : retrieve corpus qv k ≠ [])
    (hgen : gen question (assembleContext (retrieve corpus qv k)) = Except.ok answer) :
    (askAndRecord corpus k gen qv question nextId ts ledger).2 =
      ledger ++
        [⟨nextId, question, answer, (retrieve corpus qv k).map fun c => c.filename, ts⟩] ∧
    (∀ s : String, renderHistorySource s = s) := by
  have hne : (retrieve corpus qv k).isEmpty = false := by
    simp [List.isEmpty_eq_false, hret]
  exact ⟨by simp [askAndRecord, hne, hgen], fun s => rfl⟩

theorem chat_record_sources_spec_witness :
    (askAndRecord [⟨0, 0, 0, "a.pdf", 1, "hello", [1]⟩] 3 (fun _ _ => Except.ok "ans")
        [1] "what" 7 11 []).2 = [⟨7, "what", "ans", ["a.pdf"], 11⟩] ∧
    renderHistorySource "a.pdf" = "a.pdf" := by
  have h := chat_record_sources_spec [⟨0, 0, 0, "a.pdf", 1, "hello", [1]⟩] 3 [1]
    "what" "ans" (fun _ _ => Except.ok "ans") 7 11 [] (by decide) rfl
  exact ⟨h.1, h.2 "a.pdf"⟩

/-- C6: page zero is the unset sentinel rather than a valid first page: a
source with page at most zero renders no page label, a source with positive
page renders the page number, and the source header is the filename followed
by that label. -/
theorem page_label_spec (s : Source) :
    (s.page ≤ 0 → pageLabel s.page = "") ∧
    (0 < s.page → pageLabel s.page = "(Page " ++ toString s.page ++ ")") ∧
    renderSource s = (s.filename ++ " " ++ pageLabel s.page, s.text) := by
  refine ⟨fun h => ?_, fun h => ?_, rfl⟩
  · rw [pageLabel, if_neg (not_lt.mpr h)]
  · rw [pageLabel, if_pos h]

theorem page_label_spec_witness :
    pageLabel (0 : Int) = "" ∧
    pageLabel (3 : Int) = "(Page " ++ toString (3 : Int) ++ ")" :=
  ⟨(page_label_spec ⟨"a.pdf", 0, "t"⟩).1 (by decide),
   (page_label_spec ⟨"a.pdf", 3, "t"⟩).2.1 (by decide)⟩

theorem jsTrim_empty_of_all_ws {s : String}
    (h : s.data.all isJsWhitespace = true) : (jsTrim s).isEmpty = true := by
  have h1 : s.data.dropWhile isJsWhitespace = [] :=
    List.dropWhile_eq_nil_iff.mpr fun x hx => List.all_eq_true.mp h x hx
  simp [jsTrim, h1, String.isEmpty]

/-- C10: submitting the Ask form with an empty or whitespace-only question is
a no-op: no request is issued, no toast raised, and the whole client state,
in-flight flag included, is returned unchanged. -/
theorem blank_question_noop_spec (st : DashState) (outcome : AskOutcome)
    (h : st.question.data.all isJsWhitespace = true) :
    handleAskQuestion st outcome = (st, false, []) := by
  simp [handleAskQuestion, jsTrim_empty_of_all_ws h]

theorem blank_question_noop_spec_witness :
    handleAskQuestion ⟨[], [], "  ", false, false, none⟩ AskOutcome.failed =
      (⟨[], [], "  ", false, false, none⟩, false, []) :=
  blank_question_noop_spec ⟨[], [], "  ", false, false, none⟩ AskOutcome.failed
    (by decide)

/-- C8: evaluation of the edit-file handler at a request whose resolved
absolute path lies outside the frontend root directory while still sharing
the root as a plain string prefix. The path ../frontend-evil/x.js resolves
from the root /app/frontend to /app/frontend-evil/x.js, which is not within
the root directory, yet the handler answers 200 and writes the file instead
of the 403 without write demanded by its own security comments. -/
theorem edit_file_outside_root_bug :
    editFileHandler "/app/frontend" (fun _ => "/app/frontend-evil/x.js")
        ⟨some "../frontend-evil/x.js", some "content"⟩ = ⟨200, true⟩ ∧
    withinDir "/app/frontend" "/app/frontend-evil/x.js" = false :=
  ⟨by decide, by decide⟩

theorem portOk_iff (l : List Char) : portOk l = true ↔
    (l = [] ∨ ∃ ds : List Char, ds ≠ [] ∧ ds.all isDigitCh = true ∧ l = ':' :: ds) := by
  cases l with
  | nil => simp [portOk]
  | cons c ds =>
      constructor
      · intro h
        simp only [portOk, Bool.and_eq_true, beq_iff_eq, Bool.not_eq_true'] at h
        obtain ⟨⟨hc, hne⟩, hall⟩ := h
        exact Or.inr ⟨ds, List.isEmpty_eq_false.mp hne, hall, by rw [hc]⟩
      · rintro (h | ⟨ds', hne, hall, heq⟩)
        · exact absurd h (List.cons_ne_nil _ _)
        · injection heq with h1 h2
          subst h1
          subst h2
          simp [portOk, hall, List.isEmpty_eq_false.mpr hne]

theorem hostPort_iff (r : List Char) : hostPort r = true ↔
    ∃ host : String, (host = "localhost" ∨ host = "127.0.0.1") ∧
      ∃ rest : List Char, r = host.data ++ rest ∧ portOk rest = true := by
  constructor
  · intro h
    simp only [hostPort, Bool.and_eq_true, Bool.or_eq_true] at h
    obtain ⟨hpre | hpre, hport⟩ := h
    · obtain ⟨rest, hrest⟩ := List.isPrefixOf_iff_prefix.mp hpre
      refine ⟨"localhost", Or.inl rfl, rest, hrest.symm, ?_⟩
      have hdrop : r.drop 9 = rest := by
        rw [← hrest]
        exact List.drop_left "localhost".data rest
      rwa [hdrop] at hport
    · obtain ⟨rest, hrest⟩ := List.isPrefixOf_iff_prefix.mp hpre
      refine ⟨"127.0.0.1", Or.inr rfl, rest, hrest.symm, ?_⟩
      have hdrop : r.drop 9 = rest := by
        rw [← hrest]
        exact List.drop_left "127.0.0.1".data rest
      rwa [hdrop] at hport
  · rintro ⟨host, hhost, rest, hr, hport⟩
    rcases hhost with h | h <;> subst h <;> subst hr
    · have hpre : "localhost".data.isPrefixOf ("localhost".data ++ rest) = true :=
        List.isPrefixOf_iff_prefix.mpr ⟨rest, rfl⟩
      have hdrop : ("localhost".data ++ rest).drop 9 = rest :=
        List.drop_left "localhost".data rest
      simp [hostPort, hpre, hdrop, hport]
    · have hpre : "127.0.0.1".data.isPrefixOf ("127.0.0.1".data ++ rest) = true :=
        List.isPrefixOf_iff_prefix.mpr ⟨rest, rfl⟩
      have hdrop : ("127.0.0.1".data ++ rest).drop 9 = rest :=
        List.drop_left "127.0.0.1".data rest
      simp [hostPort, hpre, hdrop, hport]

theorem matchesOriginRe_iff (s : String) : matchesOriginRe s = true ↔ OriginShape s := by
  constructor
  · intro h
    simp only [matchesOriginRe, Bool.or_eq_true, Bool.and_eq_true] at h
    obtain ⟨hpre, hhp⟩ | ⟨hpre, hhp⟩ := h
    · obtain ⟨r, hr⟩ := List.isPrefixOf_iff_prefix.mp hpre
      have hdrop : s.data.drop 7 = r := by
        rw [← hr]
        exact List.drop_left "http://".data r
      rw [hdrop] at hhp
      obtain ⟨host, hhost, rest, hrrest, hport⟩ := (hostPort_iff r).mp hhp
      refine ⟨"http", host, ⟨rest⟩, Or.inl rfl, hhost, ?_, ?_⟩
      · rcases (portOk_iff rest).mp hport with hnil | ⟨ds, hds, hall, hrest'⟩
        · exact Or.inl (String.ext hnil)
        · exact Or.inr ⟨ds, hds, hall, hrest'⟩
      · apply String.ext
        show s.data = ((("http" ++ "://") ++ host) ++ ⟨rest⟩).data
        rw [show ((("http" ++ "://") ++ host) ++ (⟨rest⟩ : String)).data =
            (("http".data ++ "://".data) ++ host.data) ++ rest from rfl]
        rw [show "http".data ++ "://".data = "http://".data from rfl]
        rw [List.append_assoc, ← hrrest, hr]
    · obtain ⟨r, hr⟩ := List.isPrefixOf_iff_prefix.mp hpre
      have hdrop : s.data.drop 8 = r := by
        rw [← hr]
        exact List.drop_left "https://".data r
      rw [hdrop] at hhp
      obtain ⟨host, hhost, rest, hrrest, hport⟩ := (hostPort_iff r).mp hhp
      refine ⟨"https", host, ⟨rest⟩, Or.inr rfl, hhost, ?_, ?_⟩
      · rcases (portOk_iff rest).mp hport with hnil | ⟨ds, hds, hall, hrest'⟩
        · exact Or.inl (String.ext hnil)
        · exact Or.inr ⟨ds, hds, hall, hrest'⟩
      · apply String.ext
        show s.data = ((("https" ++ "://") ++ host) ++ ⟨rest⟩).data
        rw [show ((("https" ++ "://") ++ host) ++ (⟨rest⟩ : String)).data =
            (("https".data ++ "://".data) ++ host.data) ++ rest from rfl]
        rw [show "https".data ++ "://".data = "https://".data from rfl]
        rw [List.append_assoc, ← hrrest, hr]
  · rintro ⟨proto, host, port, hproto, hhost, hport, hs⟩
    have hportOk : portOk port.data = true := by
      rcases hport with h | ⟨ds, hne, hall, hds⟩
      · rw [h]
        rfl
      · rw [hds]
        simp [portOk, hall, List.isEmpty_eq_false.mpr hne]
    have hhp : hostPort (host.data ++ port.data) = true :=
      (hostPort_iff _).mpr ⟨host, hhost, port.data, rfl, hportOk⟩
    rcases hproto with h | h <;> subst h <;> subst hs
    · have hsd : ((("http" ++ "://") ++ host) ++ port).data =
          "http://".data ++ (host.data ++ port.data) := by
        rw [show ((("http" ++ "://") ++ host) ++ port).data =
            (("http".data ++ "://".data) ++ host.data) ++ port.data from rfl]
        rw [show "http".data ++ "://".data = "http://".data from rfl]
        rw [List.append_assoc]
      have hpre :
          "http://".data.isPrefixOf ((("http" ++ "://") ++ host) ++ port).data = true := by
        rw [hsd]
        exact List.isPrefixOf_iff_prefix.mpr ⟨_, rfl⟩
      have hdrop : ((("http" ++ "://") ++ host) ++ port).data.drop 7 =
          host.data ++ port.data := by
        rw [hsd]
        exact List.drop_left "http://".data _
      simp [matchesOriginRe, hpre, hdrop, hhp]
    · have hsd : ((("https" ++ "://") ++ host) ++ port).data =
          "https://".data ++ (host.data ++ port.data) := by
        rw [show ((("https" ++ "://") ++ host) ++ port).data =
            (("https".data ++ "://".data) ++ host.data) ++ port.data from rfl]
        rw [show "https".data ++ "://".data = "https://".data from rfl]
        rw [List.append_assoc]
      have hpre :
          "https://".data.isPrefixOf ((("https" ++ "://") ++ host) ++ port).data = true := by
        rw [hsd]
        exact List.isPrefixOf_iff_prefix.mpr ⟨_, rfl⟩
      have hdrop : ((("https" ++ "://") ++ host) ++ port).data.drop 8 =
          host.data ++ port.data := by
        rw [hsd]
        exact List.drop_left "https://".data _
      simp [matchesOriginRe, hpre, hdrop, hhp]

/-- C9: isAllowedOrigin accepts an origin exactly when it is an http or https
scheme followed by the host localhost or 127.0.0.1 and an optional numeric
port, and rejects a missing or empty origin. -/
theorem isAllowedOrigin_spec :
    (∀ s : String, isAllowedOrigin (some s) = true ↔ OriginShape s) ∧
    isAllowedOrigin none = false ∧ isAllowedOrigin (some "") = false := by
  have hempty : ¬ OriginShape "" := by
    rintro ⟨proto, host, port, hproto, hhost, hport, hs⟩
    have hd := congrArg String.data hs
    rcases hproto with h | h <;> subst h
    · rw [show ((("http" ++ "://") ++ host) ++ port).data =
            (("http".data ++ "://".data) ++ host.data) ++ port.data from rfl,
          show "http".data ++ "://".data = "http://".data from rfl,
          List.append_assoc] at hd
      exact absurd hd (Ne.symm (List.cons_ne_nil _ _))
    · rw [show ((("https" ++ "://") ++ host) ++ port).data =
            (("https".data ++ "://".data) ++ host.data) ++ port.data from rfl,
          show "https".data ++ "://".data = "https://".data from rfl,
          List.append_assoc] at hd
      exact absurd hd (Ne.symm (List.cons_ne_nil _ _))
  refine ⟨fun s => ?_, rfl, by simp [isAllowedOrigin]⟩
  by_cases hs : s = ""
  · subst hs
    simp [isAllowedOrigin, hempty]
  · rw [show isAllowedOrigin (some s) =
        (if s = "" then false else matchesOriginRe s) from rfl, if_neg hs]
    exact matchesOriginRe_iff s

theorem isAllowedOrigin_spec_witness :
    isAllowedOrigin (some "http://localhost:3000") = true :=
  (isAllowedOrigin_spec.1 "http://localhost:3000").mpr
    ⟨"http", "localhost", ":3000", Or.inl rfl, Or.inl rfl,
      Or.inr ⟨['3', '0', '0', '0'], by decide, by decide, rfl⟩, rfl⟩

end RagQA
